import Mathlib

/-!
Verification of the CoreOS-ignition volume provisioning core of
terraform-provider-libvirt (`libvirt/coreos_ignition_def.go`).

Strings of the Go source are embedded as `List Char`.  External
collaborators (the libvirt connection, `encoding/json`, `encoding/xml`,
the image inspector and copier, the temp-file primitive) are modelled as
oracle fields of an explicit world record: each oracle records the
outcome the collaborator would produce, and the embedded functions
thread control flow through them exactly as the Go source does.
-/

namespace Libvirt

/-- Error values produced by the embedded functions; each constructor
corresponds to one `fmt.Errorf` site of `coreos_ignition_def.go`, carrying
the contextual arguments the Go format string interpolates. -/
inductive Err where
  | poolNotFound (poolName : List Char)
  | refreshFailed
  | tmpFileCreateFailed
  | invalidPayloadFormat (content : List Char)
  | writeFailed
  | openFailed (content : List Char)
  | copyFailed (content : List Char)
  | imageOpenFailed
  | sizeProbeFailed
  | xmlMarshalFailed
  | volumeCreateFailed (name : List Char)
  | uploadFailed
  | keyRetrievalFailed
  | invalidIdentifier (id : List Char)
deriving DecidableEq, Repr

/-- The `defIgnition` struct of the source: logical volume name, target
pool name, and the payload (`Content`: a file path or inline JSON). -/
structure defIgnition where
  Name : List Char
  PoolName : List Char
  Content : List Char
deriving DecidableEq, Repr

/-- Go's `strings.SplitN(id, sep, 2)`: split at the first occurrence of
`sep` only; a string without `sep` yields a one-element list. -/
def splitN2 (sep : Char) : List Char → List (List Char)
  | [] => [[]]
  | c :: cs =>
      if c = sep then [[], cs]
      else
        match splitN2 sep cs with
        | [x] => [c :: x]
        | x :: rest => (c :: x) :: rest
        | [] => [[c]]

/-- `buildTerraformKey`: `fmt.Sprintf("%s;%s", volumeKey, uuid.TimeOrderedUUID())`.
The freshly generated time-ordered UUID is an external collaborator and is
passed in as the `uuid` argument. -/
def buildTerraformKey (volumeKey : List Char) (uuid : List Char) : List Char :=
  volumeKey ++ [';'] ++ uuid

/-- `getIgnitionVolumeKeyFromTerraformID`: `strings.SplitN(id, ";", 2)`;
if fewer than two segments result, return `("", error)`; otherwise the
first segment with no error.  The Go pair `(string, error)` is embedded
as `List Char × Option Err`. -/
def getIgnitionVolumeKeyFromTerraformID (id : List Char) : List Char × Option Err :=
  match splitN2 ';' id with
  | [s0, _s1] => (s0, none)
  | _ => ([], some (.invalidIdentifier id))

/-- World of filesystem/JSON collaborators consumed by `createFile`.
`stat` maps a path to the contents of an existing readable file
(`none` means `os.Stat` fails, i.e. the payload is not an existing path);
`jsonIsObject` is the outcome of `json.Unmarshal` into a
`map[string]interface` (`encoding/json` is an external library);
`tempFile` is the outcome of `ioutil.TempFile` (`none` = creation failure,
`some p` = a fresh temp file at path `p`); `writeOk`, `openOk`, `copyOk`
are the outcomes of `tempFile.WriteString`, `os.Open` and `io.Copy`. -/
structure FsWorld where
  stat : List Char → Option (List Char)
  jsonIsObject : List Char → Bool
  tempFile : Option (List Char)
  writeOk : Bool
  openOk : Bool
  copyOk : Bool

/-- Outcome of `createFile`: the returned path (`""` on error) and error,
plus observation fields: whether the temporary file exists on disk when
the function returns (`tmpCreated`) and the bytes written into it
(`tmpContents`). The Go function never removes the temp file itself. -/
structure CreateFileResult where
  path : List Char
  err : Option Err
  tmpCreated : Bool
  tmpContents : List Char
deriving DecidableEq, Repr

/-- `createFile`: create a temp file; if `Content` is not an existing path
(`os.Stat` fails) require it to parse as a JSON object, else fail with the
neither-a-file-nor-a-valid-json-object error; then either write the raw
`Content` string into the temp file, or copy the source file's bytes. -/
def createFile (w : FsWorld) (ign : defIgnition) : CreateFileResult :=
  match w.tempFile with
  | none => { path := [], err := some .tmpFileCreateFailed,
              tmpCreated := false, tmpContents := [] }
  | some tmpPath =>
      match w.stat ign.Content with
      | none =>
          if w.jsonIsObject ign.Content then
            -- file = false: write the raw Content string
            if w.writeOk then
              { path := tmpPath, err := none,
                tmpCreated := true, tmpContents := ign.Content }
            else
              { path := [], err := some .writeFailed,
                tmpCreated := true, tmpContents := [] }
          else
            { path := [], err := some (.invalidPayloadFormat ign.Content),
              tmpCreated := true, tmpContents := [] }
      | some srcContents =>
          -- file = true: open the supplied file and copy it
          if w.openOk then
            if w.copyOk then
              { path := tmpPath, err := none,
                tmpCreated := true, tmpContents := srcContents }
            else
              { path := [], err := some (.copyFailed ign.Content),
                tmpCreated := true, tmpContents := [] }
          else
            { path := [], err := some (.openFailed ign.Content),
              tmpCreated := true, tmpContents := [] }

/-- Concrete filesystem world for examples: the only interesting path
holds the two bytes `"xy"`; all primitives succeed. -/
def fsFileWorld : FsWorld :=
  { stat := fun _ => some ['x', 'y'], jsonIsObject := fun _ => true,
    tempFile := some ['t'], writeOk := true, openOk := true, copyOk := true }

/-- Concrete filesystem world for examples: no path exists; inline content
parses as a JSON object; all primitives succeed. -/
def fsInlineWorld : FsWorld :=
  { stat := fun _ => none, jsonIsObject := fun _ => true,
    tempFile := some ['t'], writeOk := true, openOk := true, copyOk := true }

/-- Concrete filesystem world for examples: no path exists and the inline
content does not parse as a JSON object. -/
def fsBadWorld : FsWorld :=
  { stat := fun _ => none, jsonIsObject := fun _ => false,
    tempFile := some ['t'], writeOk := true, openOk := true, copyOk := true }

/-- Modelled from the spec: the volume-descriptor capacity, a value with a
unit (the source struct lives in `volume_def.go`, which is not under
`src/`; §3 of the spec fixes its shape: capacity = value + unit). -/
structure DefVolumeCapacity where
  Value : Nat
  Unit : List Char
deriving DecidableEq, Repr

/-- Modelled from the spec: the volume-descriptor target format
(fixed type string, e.g. `"raw"`). -/
structure DefVolumeFormat where
  type : List Char
deriving DecidableEq, Repr

/-- Modelled from the spec: the volume-descriptor target, holding the
format. -/
structure DefVolumeTarget where
  Format : DefVolumeFormat
deriving DecidableEq, Repr

/-- Modelled from the spec: the `defVolume` descriptor — name, capacity
(value + unit) and target format — built fresh per provisioning call. -/
structure DefVolume where
  Name : List Char
  Capacity : DefVolumeCapacity
  Target : DefVolumeTarget
deriving DecidableEq, Repr

/-- Modelled from the spec: `newDefVolume()` returns a descriptor with
default (empty) fields; `CreateAndUpload` overwrites every field the host
call depends on (name, capacity value/unit, target format type). -/
def newDefVolume : DefVolume :=
  { Name := [], Capacity := { Value := 0, Unit := [] },
    Target := { Format := { type := [] } } }

/-- World of host-side collaborators consumed by `CreateAndUpload`:
`poolExists` is the outcome of `LookupStoragePoolByName`; `refreshOk` the
outcome of the retry-wrapped `pool.Refresh`; `fs` the filesystem world for
`createFile`; `imageOk` the outcome of `newImage`; `sizeResult` of
`img.Size`; `xmlOk` of `xml.Marshal`; `createOk` of
`pool.StorageVolCreateXML`; `importOk` of `img.Import` (the byte copier);
`keyResult` of `volume.GetKey`; `uuid` the freshly generated
time-ordered UUID. -/
structure HostWorld where
  poolExists : Bool
  refreshOk : Bool
  fs : FsWorld
  imageOk : Bool
  sizeResult : Option Nat
  xmlOk : Bool
  createOk : Bool
  importOk : Bool
  keyResult : Option (List Char)
  uuid : List Char

/-- Outcome of `CreateAndUpload`: the returned identifier (`""` on error)
and error, plus observation fields: whether `StorageVolCreateXML` was
invoked and with which descriptor, whether any volume-deletion host call
was made (the source contains none), and whether the deferred
`os.Remove` of the temporary ignition file ran. -/
structure ProvisionResult where
  id : List Char
  err : Option Err
  volCreateCalled : Bool
  volCreateDef : Option DefVolume
  volDeleteCalled : Bool
  tmpRemoveCalled : Bool
deriving DecidableEq, Repr

/-- `CreateAndUpload`: look up the pool, acquire the per-pool lock (a
no-op in this sequential embedding), refresh the pool with retry,
materialize the payload via `createFile` (its temp file is removed by a
`defer` installed only after `createFile` succeeds), probe the artifact
size, fill in the volume descriptor (capacity in bytes, unit `"B"`,
format `"raw"`), serialize it, create the volume, upload the bytes,
fetch the volume key and return `buildTerraformKey key`. Every failing
step returns `("", err)` immediately. -/
def CreateAndUpload (w : HostWorld) (ign : defIgnition) : ProvisionResult :=
  if !w.poolExists then
    { id := [], err := some (.poolNotFound ign.PoolName),
      volCreateCalled := false, volCreateDef := none,
      volDeleteCalled := false, tmpRemoveCalled := false }
  else if !w.refreshOk then
    { id := [], err := some .refreshFailed,
      volCreateCalled := false, volCreateDef := none,
      volDeleteCalled := false, tmpRemoveCalled := false }
  else
    let volumeDef0 := { newDefVolume with Name := ign.Name }
    let cf := createFile w.fs ign
    match cf.err with
    | some e =>
        -- createFile failed: the removal defer was never installed
        { id := [], err := some e,
          volCreateCalled := false, volCreateDef := none,
          volDeleteCalled := false, tmpRemoveCalled := false }
    | none =>
        -- from here on the deferred os.Remove runs on every return path
        if !w.imageOk then
          { id := [], err := some .imageOpenFailed,
            volCreateCalled := false, volCreateDef := none,
            volDeleteCalled := false, tmpRemoveCalled := true }
        else
          match w.sizeResult with
          | none =>
              { id := [], err := some .sizeProbeFailed,
                volCreateCalled := false, volCreateDef := none,
                volDeleteCalled := false, tmpRemoveCalled := true }
          | some size =>
              let volumeDef :=
                { volumeDef0 with
                    Capacity := { Value := size, Unit := ['B'] },
                    Target := { Format := { type := ['r', 'a', 'w'] } } }
              if !w.xmlOk then
                { id := [], err := some .xmlMarshalFailed,
                  volCreateCalled := false, volCreateDef := none,
                  volDeleteCalled := false, tmpRemoveCalled := true }
              else if !w.createOk then
                { id := [], err := some (.volumeCreateFailed ign.Name),
                  volCreateCalled := true, volCreateDef := some volumeDef,
                  volDeleteCalled := false, tmpRemoveCalled := true }
              else if !w.importOk then
                { id := [], err := some .uploadFailed,
                  volCreateCalled := true, volCreateDef := some volumeDef,
                  volDeleteCalled := false, tmpRemoveCalled := true }
              else
                match w.keyResult with
                | none =>
                    { id := [], err := some .keyRetrievalFailed,
                      volCreateCalled := true, volCreateDef := some volumeDef,
                      volDeleteCalled := false, tmpRemoveCalled := true }
                | some key =>
                    { id := buildTerraformKey key w.uuid, err := none,
                      volCreateCalled := true, volCreateDef := some volumeDef,
                      volDeleteCalled := false, tmpRemoveCalled := true }

/-- Classification of the error sites of `CreateAndUpload` that precede
the `StorageVolCreateXML` host call (pool lookup, refresh, every
materialization failure, image open, size probe, XML serialization). -/
def Err.isEarly : Err → Bool
  | .volumeCreateFailed _ => false
  | .uploadFailed => false
  | .keyRetrievalFailed => false
  | _ => true

/-- Concrete host world for examples: every collaborator succeeds, the
payload is an existing file of two bytes, the probed size is 2, the host
assigns volume key `"k"` and the fresh UUID is `"u"`. -/
def hostOkWorld : HostWorld :=
  { poolExists := true, refreshOk := true, fs := fsFileWorld,
    imageOk := true, sizeResult := some 2, xmlOk := true,
    createOk := true, importOk := true, keyResult := some ['k'],
    uuid := ['u'] }

/-- Concrete host world where the byte upload (`img.Import`) fails after
the volume was created. -/
def hostUploadFailWorld : HostWorld :=
  { hostOkWorld with importOk := false }

/-- Concrete host world where the payload is neither a file nor a JSON
object, so materialization fails. -/
def hostBadPayloadWorld : HostWorld :=
  { hostOkWorld with fs := fsBadWorld }

/-- Concrete host world where the storage pool does not exist. -/
def hostNoPoolWorld : HostWorld :=
  { hostOkWorld with poolExists := false }

/-- Concrete ignition request for examples. -/
def ignExample : defIgnition :=
  { Name := ['n'], PoolName := ['d'], Content := ['p'] }

theorem splitN2_not_mem (sep : Char) (l : List Char) (h : sep ∉ l) :
    splitN2 sep l = [l] := by
  induction l with
  | nil => rfl
  | cons c cs ih =>
      have hc : c ≠ sep := fun hcs => h (hcs ▸ List.mem_cons_self c cs)
      have hcs : sep ∉ cs := fun hm => h (List.mem_cons_of_mem c hm)
      simp [splitN2, hc, ih hcs]

theorem splitN2_mem (sep : Char) (l : List Char) (h : sep ∈ l) :
    splitN2 sep l =
      [l.takeWhile (· != sep), (l.dropWhile (· != sep)).tail] := by
  induction l with
  | nil => cases h
  | cons c cs ih =>
      by_cases hc : c = sep
      · subst hc
        simp [splitN2, List.takeWhile_cons, List.dropWhile_cons]
      · have hm : sep ∈ cs := by
          rcases List.mem_cons.mp h with h1 | h1
          · exact absurd h1.symm hc
          · exact h1
        have hcb : (c != sep) = true := by simp [hc]
        simp [splitN2, hc, ih hm, List.takeWhile_cons, List.dropWhile_cons, hcb]

theorem splitN2_key_append (sep : Char) (k u : List Char) (h : sep ∉ k) :
    splitN2 sep (k ++ sep :: u) = [k, u] := by
  induction k with
  | nil => simp [splitN2]
  | cons c cs ih =>
      have hc : c ≠ sep := fun hcs => h (hcs ▸ List.mem_cons_self c cs)
      have hcs : sep ∉ cs := fun hm => h (List.mem_cons_of_mem c hm)
      simp [splitN2, hc, ih hcs]

/-- C1 (counterexample): the round-trip law fails for the non-empty volume
key `"a;b"`, which contains the delimiter: decoding the encoded identifier
returns only `"a"`, not the original key. -/
theorem c1_roundtrip_counterexample :
    (['a', ';', 'b'] : List Char) ≠ [] ∧
      getIgnitionVolumeKeyFromTerraformID
        (buildTerraformKey ['a', ';', 'b'] ['u']) ≠ (['a', ';', 'b'], none) := by
  constructor
  · decide
  · decide

/-- C1 (amended): for every non-empty volume key `k` that does not contain
the delimiter `';'`, and every freshness token `u`, decoding the identifier
produced by encoding `k` succeeds and yields exactly `k`. -/
theorem c1_roundtrip (k u : List Char) (hne : k ≠ []) (h : ';' ∉ k) :
    getIgnitionVolumeKeyFromTerraformID (buildTerraformKey k u) = (k, none) := by
  have : buildTerraformKey k u = k ++ ';' :: u := by
    simp [buildTerraformKey]
  rw [this, getIgnitionVolumeKeyFromTerraformID, splitN2_key_append ';' k u h]

/-- C1 (witness): the amended round-trip law at the concrete key `"abc"`
and token `"u"`. -/
theorem c1_roundtrip_witness :
    getIgnitionVolumeKeyFromTerraformID
      (buildTerraformKey ['a', 'b', 'c'] ['u']) = (['a', 'b', 'c'], none) :=
  c1_roundtrip ['a', 'b', 'c'] ['u'] (by decide) (by decide)

/-- C2: for every `id`, if `id` contains a `';'` then decoding succeeds and
returns the prefix of `id` before the first `';'`; otherwise decoding fails
with the invalid-identifier error and returns the empty key. -/
theorem c2_decode_contract (id : List Char) :
    (';' ∈ id →
      getIgnitionVolumeKeyFromTerraformID id = (id.takeWhile (· != ';'), none)) ∧
    (';' ∉ id →
      getIgnitionVolumeKeyFromTerraformID id = ([], some (.invalidIdentifier id))) := by
  constructor
  · intro h
    rw [getIgnitionVolumeKeyFromTerraformID, splitN2_mem ';' id h]
  · intro h
    rw [getIgnitionVolumeKeyFromTerraformID, splitN2_not_mem ';' id h]

/-- C2 (witness): the decode contract at `"a;b"` (delimiter present) and at
`"ab"` (no delimiter). -/
theorem c2_decode_contract_witness :
    getIgnitionVolumeKeyFromTerraformID ['a', ';', 'b'] = (['a'], none) ∧
      getIgnitionVolumeKeyFromTerraformID ['a', 'b'] =
        ([], some (.invalidIdentifier ['a', 'b'])) := by
  constructor
  · exact ((c2_decode_contract ['a', ';', 'b']).1 (by decide)).trans (by decide)
  · exact (c2_decode_contract ['a', 'b']).2 (by decide)

/-- C3: whenever `createFile` succeeds, the bytes written into the
temporary artifact are byte-for-byte the source file's contents when the
payload is a path to an existing file, and the raw payload string itself
when the payload is not an existing path (hence parsed as a JSON object). -/
theorem c3_materialize_content (w : FsWorld) (ign : defIgnition)
    (hok : (createFile w ign).err = none) :
    (∀ src, w.stat ign.Content = some src →
        (createFile w ign).tmpContents = src) ∧
    (w.stat ign.Content = none →
        (createFile w ign).tmpContents = ign.Content) := by
  constructor
  · intro src hsrc
    cases htf : w.tempFile with
    | none => simp [createFile, htf] at hok
    | some p =>
        cases hopen : w.openOk with
        | false => simp [createFile, htf, hsrc, hopen] at hok
        | true =>
            cases hcopy : w.copyOk with
            | false => simp [createFile, htf, hsrc, hopen, hcopy] at hok
            | true => simp [createFile, htf, hsrc, hopen, hcopy]
  · intro hstat
    cases htf : w.tempFile with
    | none => simp [createFile, htf] at hok
    | some p =>
        cases hjs : w.jsonIsObject ign.Content with
        | false => simp [createFile, htf, hstat, hjs] at hok
        | true =>
            cases hw : w.writeOk with
            | false => simp [createFile, htf, hstat, hjs, hw] at hok
            | true => simp [createFile, htf, hstat, hjs, hw]

/-- C3 (witness): content correctness at two concrete worlds — one where
the payload `"p"` is an existing file containing `"xy"`, one where the
payload is inline JSON content. -/
theorem c3_materialize_content_witness :
    (createFile fsFileWorld
        { Name := ['n'], PoolName := ['d'], Content := ['p'] }).tmpContents
      = ['x', 'y'] ∧
    (createFile fsInlineWorld
        { Name := ['n'], PoolName := ['d'], Content := ['{', '}'] }).tmpContents
      = ['{', '}'] := by
  constructor
  · exact (c3_materialize_content fsFileWorld
      { Name := ['n'], PoolName := ['d'], Content := ['p'] } rfl).1 ['x', 'y'] rfl
  · exact (c3_materialize_content fsInlineWorld
      { Name := ['n'], PoolName := ['d'], Content := ['{', '}'] } rfl).2 rfl

/-- C4: if the payload is neither an existing path (`os.Stat` fails) nor a
string parseable as a JSON object, `createFile` fails with the
invalid-payload-format error and returns an empty artifact path
(given the temp-file primitive itself succeeded). -/
theorem c4_materialize_rejection (w : FsWorld) (ign : defIgnition)
    (p : List Char) (htf : w.tempFile = some p)
    (hstat : w.stat ign.Content = none)
    (hjs : w.jsonIsObject ign.Content = false) :
    (createFile w ign).err = some (.invalidPayloadFormat ign.Content) ∧
      (createFile w ign).path = [] := by
  simp [createFile, htf, hstat, hjs]

/-- C4 (witness): the rejection at the concrete payload `"x"` that is
neither a file nor a JSON object. -/
theorem c4_materialize_rejection_witness :
    (createFile fsBadWorld
        { Name := ['n'], PoolName := ['d'], Content := ['x'] }).err
      = some (.invalidPayloadFormat ['x']) ∧
    (createFile fsBadWorld
        { Name := ['n'], PoolName := ['d'], Content := ['x'] }).path
      = [] :=
  c4_materialize_rejection fsBadWorld
    { Name := ['n'], PoolName := ['d'], Content := ['x'] } ['t'] rfl rfl rfl

/-- C5: on every execution of `CreateAndUpload`, either the call succeeded
(nil error) or the returned identifier is the empty string — so a failing
execution never returns a partial identifier, and a non-empty identifier
comes only with a nil error. -/
theorem c5_no_partial_identifier (w : HostWorld) (ign : defIgnition) :
    (CreateAndUpload w ign).err = none ∨ (CreateAndUpload w ign).id = [] := by
  unfold CreateAndUpload
  cases hcf : (createFile w.fs ign).err <;>
    simp only [hcf] <;>
    (repeat' split) <;>
    simp

/-- C6: on every successful call, the volume descriptor passed to the
host's volume-creation call has the request's logical name, capacity equal
to the probed artifact size with unit `"B"`, and target format `"raw"`. -/
theorem c6_descriptor (w : HostWorld) (ign : defIgnition) (n : Nat)
    (hsz : w.sizeResult = some n)
    (hok : (CreateAndUpload w ign).err = none) :
    (CreateAndUpload w ign).volCreateDef =
      some { Name := ign.Name, Capacity := { Value := n, Unit := ['B'] },
             Target := { Format := { type := ['r', 'a', 'w'] } } } := by
  unfold CreateAndUpload at hok ⊢
  cases hcf : (createFile w.fs ign).err <;>
    simp only [hcf] at hok ⊢ <;>
    (repeat' split at hok) <;>
    simp_all

/-- C6 (witness): the descriptor at the all-success world, where the
probed size is 2. -/
theorem c6_descriptor_witness :
    (CreateAndUpload hostOkWorld ignExample).volCreateDef =
      some { Name := ['n'], Capacity := { Value := 2, Unit := ['B'] },
             Target := { Format := { type := ['r', 'a', 'w'] } } } :=
  c6_descriptor hostOkWorld ignExample 2 rfl rfl

/-- C7: whenever `CreateAndUpload` fails with an error from one of the
steps preceding volume creation (pool lookup, refresh, materialization,
image open, size probe, XML serialization), the `StorageVolCreateXML`
host call was never made. -/
theorem c7_no_volume_on_early_failure (w : HostWorld) (ign : defIgnition)
    (e : Err) (herr : (CreateAndUpload w ign).err = some e)
    (he : e.isEarly = true) :
    (CreateAndUpload w ign).volCreateCalled = false := by
  unfold CreateAndUpload at herr ⊢
  cases hcf : (createFile w.fs ign).err <;>
    simp only [hcf] at herr ⊢ <;>
    (repeat' split at herr) <;>
    (try simp_all [Err.isEarly]) <;>
    (cases herr; simp at he)

/-- C7 (witness): the missing-pool world fails with `poolNotFound` (an
early error) and the creation call was not made. -/
theorem c7_no_volume_on_early_failure_witness :
    (CreateAndUpload hostNoPoolWorld ignExample).volCreateCalled = false :=
  c7_no_volume_on_early_failure hostNoPoolWorld ignExample
    (.poolNotFound ['d']) rfl rfl

/-- C8: no execution of `CreateAndUpload` ever makes a volume-deletion
host call; in particular, when volume creation succeeded but a later step
fails, the error returned is the upload or key-retrieval failure and the
created volume is left in place (no rollback). -/
theorem c8_no_rollback (w : HostWorld) (ign : defIgnition) :
    (CreateAndUpload w ign).volDeleteCalled = false ∧
    (w.createOk = true →
      (CreateAndUpload w ign).volCreateCalled = true →
      (CreateAndUpload w ign).err ≠ none →
        (CreateAndUpload w ign).err = some .uploadFailed ∨
        (CreateAndUpload w ign).err = some .keyRetrievalFailed) := by
  constructor
  · unfold CreateAndUpload
    cases hcf : (createFile w.fs ign).err <;>
      simp only [hcf] <;>
      (repeat' split) <;>
      simp
  · intro hco hcc herr
    unfold CreateAndUpload at hcc herr ⊢
    cases hcf : (createFile w.fs ign).err <;>
      simp only [hcf] at hcc herr ⊢ <;>
      (repeat' split at hcc) <;>
      simp_all

/-- C8 (witness): at the world where the upload fails after creation, the
volume is not deleted and the error is the upload failure. -/
theorem c8_no_rollback_witness :
    (CreateAndUpload hostUploadFailWorld ignExample).volDeleteCalled = false ∧
    ((CreateAndUpload hostUploadFailWorld ignExample).err = some .uploadFailed ∨
      (CreateAndUpload hostUploadFailWorld ignExample).err
        = some .keyRetrievalFailed) :=
  ⟨(c8_no_rollback hostUploadFailWorld ignExample).1,
    (c8_no_rollback hostUploadFailWorld ignExample).2 rfl rfl (by decide)⟩

/-- C10: `createFile` creates its temporary file before validating the
payload, and on a materialization failure (with the temp-file primitive
itself succeeding) the temp file exists on disk, the deferred removal in
`CreateAndUpload` never runs (it is installed only after `createFile`
succeeds), and the error is propagated unchanged. -/
theorem c10_tmp_file_persists (w : HostWorld) (ign : defIgnition)
    (p : List Char) (htf : w.fs.tempFile = some p)
    (hpe : w.poolExists = true) (hro : w.refreshOk = true)
    (hcf : (createFile w.fs ign).err.isSome = true) :
    (createFile w.fs ign).tmpCreated = true ∧
    (CreateAndUpload w ign).tmpRemoveCalled = false ∧
    (CreateAndUpload w ign).err = (createFile w.fs ign).err := by
  refine ⟨?_, ?_⟩
  · cases hstat : w.fs.stat ign.Content with
    | none =>
        cases hjs : w.fs.jsonIsObject ign.Content with
        | false => simp [createFile, htf, hstat, hjs]
        | true =>
            cases hw : w.fs.writeOk with
            | false => simp [createFile, htf, hstat, hjs, hw]
            | true => simp [createFile, htf, hstat, hjs, hw]
    | some src =>
        cases hopen : w.fs.openOk with
        | false => simp [createFile, htf, hstat, hopen]
        | true =>
            cases hcopy : w.fs.copyOk with
            | false => simp [createFile, htf, hstat, hopen, hcopy]
            | true => simp [createFile, htf, hstat, hopen, hcopy]
  · cases hcfe : (createFile w.fs ign).err with
    | none => simp [hcfe] at hcf
    | some e => simp [CreateAndUpload, hpe, hro, hcfe]

/-- C10 (witness): with the invalid payload `"p"` (not a file, not JSON),
materialization fails, the temp file was created and is never removed,
and `CreateAndUpload` propagates the invalid-payload error. -/
theorem c10_tmp_file_persists_witness :
    (createFile hostBadPayloadWorld.fs ignExample).tmpCreated = true ∧
    (CreateAndUpload hostBadPayloadWorld ignExample).tmpRemoveCalled = false ∧
    (CreateAndUpload hostBadPayloadWorld ignExample).err
      = (createFile hostBadPayloadWorld.fs ignExample).err :=
  c10_tmp_file_persists hostBadPayloadWorld ignExample ['t'] rfl rfl rfl rfl

end Libvirt
